import Mathlib

/-!
Shallow embedding of `src/report_generator.py` (PDF report generator).

The Python module assembles an ordered list of ReportLab flowables
("blocks") from declarative section/table dictionaries, and registers a
page-decoration callback drawing header/footer bars on a canvas.  We embed:

* the colour palette and paragraph-style registry (`_build_styles`),
* the page callback `_PageTemplate.__call__` as an explicit state
  transformer on a canvas-state record, emitting a list of draw operations,
* the table builder `_build_pdf_table`,
* the three entry points `generate_text_report`, `generate_table_report`
  and `generate_full_report` as pure functions from their inputs to the
  story (list of blocks) they hand to `doc.build`, plus the returned path.

Numbers are exact rationals (ReportLab's `cm` is `72 / 2.54` points).
`datetime.now().strftime(...)` is modelled by a `today : String` parameter.
Python dictionaries with optional keys are structures of `Option` fields,
and `d.get(k, default)` is `Option.getD`.  Python truthiness tests
(`if heading:`, `if headers and rows:`) become inequality with the empty
string / empty list.  Cell values (Python `Any`, passed through `str`) are
modelled as strings.
-/

namespace ReportGen

/-- ReportLab colour, identified by its (hex) value. -/
structure Color where
  hex : String
deriving DecidableEq

def BRAND_DARK : Color := ⟨"#1A237E"⟩
def BRAND_MID : Color := ⟨"#3949AB"⟩
def BRAND_ACCENT : Color := ⟨"#42A5F5"⟩
def BRAND_LIGHT : Color := ⟨"#E3F2FD"⟩
def GREY_DARK : Color := ⟨"#424242"⟩
def GREY_MID : Color := ⟨"#757575"⟩
def GREY_LIGHT : Color := ⟨"#F5F5F5"⟩
def WHITE : Color := ⟨"#FFFFFF"⟩
def BLACK : Color := ⟨"#000000"⟩
def GRID_GREY : Color := ⟨"#BDBDBD"⟩

/-- ReportLab length unit: one centimetre in points, `72 / 2.54`. -/
def cm : ℚ := 3600 / 127

def mm : ℚ := cm / 10

/-- ReportLab A4 page size `(210*mm, 297*mm)`. -/
def A4 : ℚ × ℚ := (210 * mm, 297 * mm)

/-- Paragraph alignments `TA_LEFT`, `TA_CENTER`, `TA_RIGHT`. -/
def TA_LEFT : ℕ := 0
def TA_CENTER : ℕ := 1
def TA_RIGHT : ℕ := 2

/-- A ReportLab `ParagraphStyle`.  Defaults are the attributes inherited
from the sample stylesheet's `Normal` style (the `parent` of every style
built by `_build_styles`). -/
structure ParagraphStyle where
  name : String
  fontName : String := "Helvetica"
  fontSize : ℚ := 10
  textColor : Color := BLACK
  alignment : ℕ := TA_LEFT
  leading : ℚ := 12
  spaceBefore : ℚ := 0
  spaceAfter : ℚ := 0
  leftIndent : ℚ := 0
  bulletIndent : ℚ := 0
deriving DecidableEq

def styleTitle : ParagraphStyle :=
  { name := "ReportTitle", fontSize := 28, fontName := "Helvetica-Bold",
    textColor := WHITE, alignment := TA_CENTER, spaceAfter := 6 }

def styleSubtitle : ParagraphStyle :=
  { name := "ReportSubtitle", fontSize := 14, fontName := "Helvetica",
    textColor := BRAND_ACCENT, alignment := TA_CENTER, spaceAfter := 4 }

def styleH1 : ParagraphStyle :=
  { name := "H1", fontSize := 18, fontName := "Helvetica-Bold",
    textColor := BRAND_DARK, spaceBefore := 16, spaceAfter := 8 }

def styleH2 : ParagraphStyle :=
  { name := "H2", fontSize := 14, fontName := "Helvetica-Bold",
    textColor := BRAND_MID, spaceBefore := 12, spaceAfter := 6 }

def styleH3 : ParagraphStyle :=
  { name := "H3", fontSize := 11, fontName := "Helvetica-Bold",
    textColor := GREY_DARK, spaceBefore := 8, spaceAfter := 4 }

def styleBody : ParagraphStyle :=
  { name := "Body", fontSize := 10, fontName := "Helvetica",
    textColor := GREY_DARK, leading := 14, spaceAfter := 6 }

def styleBullet : ParagraphStyle :=
  { name := "Bullet", fontSize := 10, fontName := "Helvetica",
    textColor := GREY_DARK, leading := 14, leftIndent := 20,
    bulletIndent := 10, spaceAfter := 3 }

def styleCaption : ParagraphStyle :=
  { name := "Caption", fontSize := 9, fontName := "Helvetica-Oblique",
    textColor := GREY_MID, alignment := TA_CENTER, spaceAfter := 6 }

def styleFooter : ParagraphStyle :=
  { name := "Footer", fontSize := 8, fontName := "Helvetica",
    textColor := GREY_MID, alignment := TA_CENTER }

/-- `_build_styles()`: builds and returns the custom paragraph style
dictionary (insertion-ordered association list, like a Python dict).  The
`Unit` argument mirrors the zero-argument call: the function builds a
fresh mapping on every invocation and touches no shared state. -/
def _build_styles (_u : Unit) : List (String × ParagraphStyle) :=
  [("Title", styleTitle), ("Subtitle", styleSubtitle), ("H1", styleH1),
   ("H2", styleH2), ("H3", styleH3), ("Body", styleBody),
   ("Bullet", styleBullet), ("Caption", styleCaption),
   ("Footer", styleFooter)]

/-!  Table style commands (`TableStyle` entries), kept as data. -/

inductive TArg where
  | col (c : Color)
  | str (s : String)
  | num (q : ℚ)
  | cols (l : List Color)
deriving DecidableEq

structure TCmd where
  cmd : String
  cellFrom : Int × Int
  cellTo : Int × Int
  args : List TArg
deriving DecidableEq

/-- The `TableStyle` applied by `_build_pdf_table`. -/
def tableStyleCmds : List TCmd :=
  [⟨"BACKGROUND", (0, 0), (-1, 0), [.col BRAND_DARK]⟩,
   ⟨"TEXTCOLOR", (0, 0), (-1, 0), [.col WHITE]⟩,
   ⟨"FONTNAME", (0, 0), (-1, 0), [.str "Helvetica-Bold"]⟩,
   ⟨"FONTSIZE", (0, 0), (-1, 0), [.num 10]⟩,
   ⟨"BOTTOMPADDING", (0, 0), (-1, 0), [.num 8]⟩,
   ⟨"TOPPADDING", (0, 0), (-1, 0), [.num 8]⟩,
   ⟨"BACKGROUND", (0, 1), (-1, -1), [.col WHITE]⟩,
   ⟨"ROWBACKGROUNDS", (0, 1), (-1, -1), [.cols [WHITE, BRAND_LIGHT]]⟩,
   ⟨"FONTNAME", (0, 1), (-1, -1), [.str "Helvetica"]⟩,
   ⟨"FONTSIZE", (0, 1), (-1, -1), [.num 9]⟩,
   ⟨"TOPPADDING", (0, 1), (-1, -1), [.num 5]⟩,
   ⟨"BOTTOMPADDING", (0, 1), (-1, -1), [.num 5]⟩,
   ⟨"LEFTPADDING", (0, 0), (-1, -1), [.num 8]⟩,
   ⟨"RIGHTPADDING", (0, 0), (-1, -1), [.num 8]⟩,
   ⟨"GRID", (0, 0), (-1, -1), [.num (1/2), .col GRID_GREY]⟩,
   ⟨"LINEBELOW", (0, 0), (-1, 0), [.num (3/2), .col BRAND_MID]⟩]

/-- The `TableStyle` applied to the navy cover banner of
`generate_full_report`. -/
def bannerStyleCmds : List TCmd :=
  [⟨"BACKGROUND", (0, 0), (-1, -1), [.col BRAND_DARK]⟩,
   ⟨"TOPPADDING", (0, 0), (-1, -1), [.num 18]⟩,
   ⟨"BOTTOMPADDING", (0, 0), (-1, -1), [.num 18]⟩,
   ⟨"LEFTPADDING", (0, 0), (-1, -1), [.num 20]⟩,
   ⟨"RIGHTPADDING", (0, 0), (-1, -1), [.num 20]⟩]

/-- A ReportLab flowable appended to the `story` list.  A table cell is a
`Paragraph`: (text, style). -/
inductive Block where
  | spacer (width height : ℚ)
  | paragraph (text : String) (style : ParagraphStyle)
  | hrule (width : String) (color : Color) (thickness : ℚ)
  | pageBreak
  | table (data : List (List (String × ParagraphStyle)))
      (colWidths : List ℚ) (repeatRows : ℕ) (style : List TCmd)
deriving DecidableEq

def isTableBlock : Block → Bool
  | .table _ _ _ _ => true
  | _ => false

def colWidthsOf : Block → List ℚ
  | .table _ ws _ _ => ws
  | _ => []

/-- Python `body.replace("\n", "<br/>")` on the character list: the
pattern is the single character `'\n'`, so `str.replace` substitutes
`"<br/>"` for every newline, left to right. -/
def replaceNLChars : List Char → String
  | [] => ""
  | c :: cs =>
      (if c = '\x0a' then "<br/>" else String.singleton c) ++ replaceNLChars cs

/-- `s.replace("\n", "<br/>")` — replace newlines with `<br/>` so
ReportLab renders them as line breaks. -/
def replaceNewlines (s : String) : String := replaceNLChars s.data

/-- `_build_pdf_table(headers, rows, col_widths=None, page_width=17*cm)`:
build a styled table.  When `col_widths` is `None`, widths are
auto-distributed: `n = max(len(headers), 1)`, each column gets
`page_width / n`.  Header cells are bold-wrapped paragraphs; each data
cell is `Paragraph(str(cell), Body)`. -/
def _build_pdf_table (headers : List String) (rows : List (List String))
    (col_widths : Option (List ℚ)) (page_width : ℚ) : Block :=
  let widths : List ℚ :=
    match col_widths with
    | none =>
        let n : ℕ := max headers.length 1
        List.replicate n (page_width / (n : ℚ))
    | some ws => ws
  let header_cells := headers.map (fun h => ("<b>" ++ h ++ "</b>", styleBody))
  let data := header_cells :: rows.map (fun row => row.map (fun c => (c, styleBody)))
  Block.table data widths 1 tableStyleCmds

/-!  Section and table dictionaries. -/

/-- A section dict: optional keys "heading", "body", "bullets", "level". -/
structure SectionDict where
  heading : Option String := none
  body : Option String := none
  bullets : Option (List String) := none
  level : Option Int := none
deriving DecidableEq

/-- A table dict: optional keys "heading", "headers", "rows", "caption". -/
structure TableDict where
  heading : Option String := none
  headers : Option (List String) := none
  rows : Option (List (List String)) := none
  caption : Option String := none
deriving DecidableEq

/-!  Per-section blocks.  The loop body of `generate_text_report` /
`generate_full_report` appends, in order: the heading group (guarded by
`if heading:`), the body paragraph (guarded by `if body:`), one bullet
paragraph per bullet, and a trailing spacer. -/

/-- Heading group: `Paragraph(heading, H1 if level==1 else H2)`, an
`HRFlowable` coloured `BRAND_ACCENT` for level 1 and `GREY_LIGHT`
otherwise, and a `0.2*cm` spacer — emitted only when the heading is
non-empty (truthy). -/
def secHeadingBlocks (sec : SectionDict) : List Block :=
  let heading := sec.heading.getD ""
  let level := sec.level.getD 1
  let heading_style := if level = 1 then styleH1 else styleH2
  if heading ≠ "" then
    [Block.paragraph heading heading_style,
     Block.hrule "100%" (if level = 1 then BRAND_ACCENT else GREY_LIGHT) 1,
     Block.spacer 1 (cm / 5)]
  else []

/-- Body paragraph with newlines replaced by `<br/>`, emitted only when
the body text is non-empty (truthy). -/
def secBodyBlocks (sec : SectionDict) : List Block :=
  let body := sec.body.getD ""
  if body ≠ "" then
    [Block.paragraph (replaceNewlines body) styleBody]
  else []

/-- One `Paragraph("• " + bullet, Bullet)` per bullet. -/
def secBulletBlocks (sec : SectionDict) : List Block :=
  (sec.bullets.getD []).map (fun b => Block.paragraph ("• " ++ b) styleBullet)

/-- Loop body of the section loop in `generate_text_report`
(trailing `Spacer(1, 0.3*cm)`). -/
def textSectionStep (story : List Block) (sec : SectionDict) : List Block :=
  story ++ secHeadingBlocks sec ++ secBodyBlocks sec ++ secBulletBlocks sec
    ++ [Block.spacer 1 (3 / 10 * cm)]

/-- Blocks contributed by one section in `generate_full_report`
(trailing `Spacer(1, 0.4*cm)`). -/
def fullSecBlocks (sec : SectionDict) : List Block :=
  secHeadingBlocks sec ++ secBodyBlocks sec ++ secBulletBlocks sec
    ++ [Block.spacer 1 (2 / 5 * cm)]

/-- Loop body of the section loop in `generate_full_report`. -/
def fullSectionStep (story : List Block) (sec : SectionDict) : List Block :=
  story ++ fullSecBlocks sec

/-!  Per-table blocks, shared by `generate_table_report` and
`generate_full_report` (identical loop bodies up to the trailing
spacer height: `0.6*cm` vs `0.5*cm`). -/

/-- Table heading group: always styled `H1` with a `BRAND_ACCENT` rule,
emitted only for a truthy heading. -/
def tblHeadingBlocks (tbl : TableDict) : List Block :=
  let heading := tbl.heading.getD ""
  if heading ≠ "" then
    [Block.paragraph heading styleH1,
     Block.hrule "100%" BRAND_ACCENT 1,
     Block.spacer 1 (cm / 5)]
  else []

/-- The table block itself, guarded by `if headers and rows:` — it is
built (via `_build_pdf_table` with `page_width=usable_w`) only when BOTH
lists are truthy, i.e. non-empty. -/
def tblTableBlocks (usable_w : ℚ) (tbl : TableDict) : List Block :=
  let headers := tbl.headers.getD []
  let rows := tbl.rows.getD []
  if headers ≠ [] ∧ rows ≠ [] then
    [_build_pdf_table headers rows none usable_w]
  else []

/-- Caption group (`Spacer(1, 0.15*cm)` + caption paragraph), emitted
only for a truthy caption. -/
def tblCaptionBlocks (tbl : TableDict) : List Block :=
  let caption := tbl.caption.getD ""
  if caption ≠ "" then
    [Block.spacer 1 (3 / 20 * cm), Block.paragraph caption styleCaption]
  else []

/-- Loop body of the table loop in `generate_table_report`
(trailing `Spacer(1, 0.6*cm)`). -/
def tableReportTableStep (usable_w : ℚ) (story : List Block)
    (tbl : TableDict) : List Block :=
  story ++ tblHeadingBlocks tbl ++ tblTableBlocks usable_w tbl
    ++ tblCaptionBlocks tbl ++ [Block.spacer 1 (3 / 5 * cm)]

/-- Blocks contributed by one table in `generate_full_report`
(trailing `Spacer(1, 0.5*cm)`). -/
def fullTblBlocks (usable_w : ℚ) (tbl : TableDict) : List Block :=
  tblHeadingBlocks tbl ++ tblTableBlocks usable_w tbl
    ++ tblCaptionBlocks tbl ++ [Block.spacer 1 (cm / 2)]

/-- Loop body of the table loop in `generate_full_report`. -/
def fullTableStep (usable_w : ℚ) (story : List Block)
    (tbl : TableDict) : List Block :=
  story ++ fullTblBlocks usable_w tbl

/-!  Covers and entry points. -/

/-- Cover blocks of `generate_text_report`: spacer, title, optional
subtitle group, spacer, author/date caption, rule, page break. -/
def textReportCover (title author subtitle today : String) : List Block :=
  [Block.spacer 1 (2 * cm), Block.paragraph title styleTitle]
  ++ (if subtitle ≠ "" then
        [Block.spacer 1 (3 / 10 * cm), Block.paragraph subtitle styleSubtitle]
      else [])
  ++ [Block.spacer 1 (cm / 2),
      Block.paragraph
        (if author ≠ "" then author ++ "  ·  " ++ today else today)
        styleCaption,
      Block.hrule "100%" BRAND_ACCENT 2,
      Block.pageBreak]

/-- `generate_text_report(title, sections, output_path, author, subtitle,
page_size)`: returns the story handed to `doc.build` and the returned
`output_path`.  `page_size` only affects the document geometry, not the
story. -/
def generate_text_report (title : String) (sections : List SectionDict)
    (output_path author subtitle : String) (today : String) :
    List Block × String :=
  (sections.foldl textSectionStep (textReportCover title author subtitle today),
   output_path)

/-- Cover blocks of `generate_table_report`. -/
def tableReportCover (title author today : String) : List Block :=
  [Block.spacer 1 (2 * cm), Block.paragraph title styleTitle,
   Block.spacer 1 (2 / 5 * cm),
   Block.paragraph
     (if author ≠ "" then author ++ "  ·  " ++ today else today)
     styleCaption,
   Block.hrule "100%" BRAND_ACCENT 2,
   Block.pageBreak]

/-- Intro paragraph of `generate_table_report` (guarded by `if intro:`). -/
def introBlocks (intro : String) : List Block :=
  if intro ≠ "" then
    [Block.paragraph (replaceNewlines intro) styleBody,
     Block.spacer 1 (cm / 2)]
  else []

/-- `generate_table_report(title, tables, output_path, author, intro,
page_size)`: the usable width is `page_size[0] - 4*cm`. -/
def generate_table_report (title : String) (tables : List TableDict)
    (output_path author intro : String) (page_size : ℚ × ℚ)
    (today : String) : List Block × String :=
  let usable_w := page_size.1 - 4 * cm
  (tables.foldl (tableReportTableStep usable_w)
     (tableReportCover title author today ++ introBlocks intro),
   output_path)

/-- Cover blocks of `generate_full_report`: spacer, the navy banner
(a one-cell `Table` holding the title paragraph), optional subtitle
group, spacer, "Prepared by" caption, rule, page break. -/
def fullReportCover (usable_w : ℚ) (title author subtitle today : String) :
    List Block :=
  [Block.spacer 1 (3 / 2 * cm),
   Block.table [[(title, styleTitle)]] [usable_w] 0 bannerStyleCmds]
  ++ (if subtitle ≠ "" then
        [Block.spacer 1 (2 / 5 * cm), Block.paragraph subtitle styleSubtitle]
      else [])
  ++ [Block.spacer 1 (2 / 5 * cm),
      Block.paragraph
        (if author ≠ "" then
           "Prepared by: " ++ author ++ "  ·  " ++ today
         else today)
        styleCaption,
      Block.hrule "100%" BRAND_ACCENT 2,
      Block.pageBreak]

/-- Summary group of `generate_full_report` (guarded by `if summary:`):
`BRAND_MID` rule, "Summary" heading in `H1`, summary body paragraph. -/
def summaryBlocks (summary : String) : List Block :=
  [Block.hrule "100%" BRAND_MID 1,
   Block.paragraph "Summary" styleH1,
   Block.paragraph (replaceNewlines summary) styleBody]

/-- `generate_full_report(title, output_path, author, subtitle, sections,
tables, summary, page_size)`.  `sections` and `tables` default to `None`;
the loops iterate `sections or []` and `tables or []`. -/
def generate_full_report (title output_path author subtitle : String)
    (sections : Option (List SectionDict)) (tables : Option (List TableDict))
    (summary : String) (page_size : ℚ × ℚ) (today : String) :
    List Block × String :=
  let usable_w := page_size.1 - 4 * cm
  let story0 := fullReportCover usable_w title author subtitle today
  let story1 := (sections.getD []).foldl fullSectionStep story0
  let story2 := (tables.getD []).foldl (fullTableStep usable_w) story1
  let story3 := if summary ≠ "" then story2 ++ summaryBlocks summary else story2
  (story3, output_path)

/-!  Page decoration callback `_PageTemplate`. -/

/-- Constructor arguments of `_PageTemplate`. -/
structure PageTemplate where
  title : String
  author : String
  show_header : Bool := true
  show_footer : Bool := true
deriving DecidableEq

/-- Mutable drawing state of a ReportLab canvas, with the stack managed
by `saveState` / `restoreState`. -/
structure CanvasState where
  fillColor : Color
  fontName : String
  fontSize : ℚ
  saved : List (Color × String × ℚ)
deriving DecidableEq

def saveState (st : CanvasState) : CanvasState :=
  { st with saved := (st.fillColor, st.fontName, st.fontSize) :: st.saved }

def restoreState (st : CanvasState) : CanvasState :=
  match st.saved with
  | [] => st
  | (c, fn, fs) :: rest =>
      { fillColor := c, fontName := fn, fontSize := fs, saved := rest }

def setFillColor (c : Color) (st : CanvasState) : CanvasState :=
  { st with fillColor := c }

def setFont (fn : String) (fs : ℚ) (st : CanvasState) : CanvasState :=
  { st with fontName := fn, fontSize := fs }

/-- Where a string-drawing call anchors its text (`drawString`,
`drawRightString`, `drawCentredString`). -/
inductive Anchor where
  | left
  | right
  | center
deriving DecidableEq

/-- A drawing operation performed on the canvas; `rect` records the fill
colour in effect, `text` records the font and fill colour in effect. -/
inductive DrawOp where
  | rect (x y w h : ℚ) (color : Color)
  | text (anchor : Anchor) (x y : ℚ) (s : String) (fontName : String)
      (fontSize : ℚ) (color : Color)
deriving DecidableEq

/-- The fresh drawing state of a new ReportLab canvas
(black fill, Helvetica 12, empty save stack). -/
def initCanvas : CanvasState := ⟨BLACK, "Helvetica", 12, []⟩

/-- `_PageTemplate.__call__(canvas, doc)`: brackets all drawing between
`canvas.saveState()` and `canvas.restoreState()`.  When
`show_header and doc.page > 1`, draws the navy header bar with the title
(left, Helvetica-Bold 9) and the author (right, Helvetica 9) in white.
When `show_footer`, draws the light footer bar with today's date (left),
"CONFIDENTIAL" (centre) and `"Page {doc.page}"` (right) in grey
Helvetica 8.  Returns the final canvas state and the list of draw
operations, in order. -/
def pageTemplateCall (tpl : PageTemplate) (pagesize : ℚ × ℚ) (page : ℕ)
    (today : String) (st0 : CanvasState) : CanvasState × List DrawOp :=
  let w := pagesize.1
  let h := pagesize.2
  let st := saveState st0
  let hdr : CanvasState × List DrawOp :=
    if tpl.show_header ∧ 1 < page then
      let st := setFillColor BRAND_DARK st
      let o1 := DrawOp.rect 0 (h - 6 / 5 * cm) w (6 / 5 * cm) st.fillColor
      let st := setFillColor WHITE st
      let st := setFont "Helvetica-Bold" 9 st
      let o2 := DrawOp.text .left (3 / 2 * cm) (h - 4 / 5 * cm) tpl.title
        st.fontName st.fontSize st.fillColor
      let st := setFont "Helvetica" 9 st
      let o3 := DrawOp.text .right (w - 3 / 2 * cm) (h - 4 / 5 * cm)
        tpl.author st.fontName st.fontSize st.fillColor
      (st, [o1, o2, o3])
    else (st, [])
  let st := hdr.1
  let ftr : CanvasState × List DrawOp :=
    if tpl.show_footer then
      let st := setFillColor GREY_LIGHT st
      let o1 := DrawOp.rect 0 0 w (9 / 10 * cm) st.fillColor
      let st := setFillColor GREY_MID st
      let st := setFont "Helvetica" 8 st
      let o2 := DrawOp.text .left (3 / 2 * cm) (3 / 10 * cm) today
        st.fontName st.fontSize st.fillColor
      let o3 := DrawOp.text .center (w / 2) (3 / 10 * cm) "CONFIDENTIAL"
        st.fontName st.fontSize st.fillColor
      let o4 := DrawOp.text .right (w - 3 / 2 * cm) (3 / 10 * cm)
        ("Page " ++ toString page) st.fontName st.fontSize st.fillColor
      (st, [o1, o2, o3, o4])
    else (st, [])
  (restoreState ftr.1, hdr.2 ++ ftr.2)

/-- The header-bar operations: navy bar, white bold title on the left,
white author on the right. -/
def headerOps (tpl : PageTemplate) (pagesize : ℚ × ℚ) : List DrawOp :=
  [DrawOp.rect 0 (pagesize.2 - 6 / 5 * cm) pagesize.1 (6 / 5 * cm) BRAND_DARK,
   DrawOp.text .left (3 / 2 * cm) (pagesize.2 - 4 / 5 * cm) tpl.title
     "Helvetica-Bold" 9 WHITE,
   DrawOp.text .right (pagesize.1 - 3 / 2 * cm) (pagesize.2 - 4 / 5 * cm)
     tpl.author "Helvetica" 9 WHITE]

/-- The footer-bar operations: light bar, date on the left,
"CONFIDENTIAL" in the centre, the page number on the right. -/
def footerOps (pagesize : ℚ × ℚ) (page : ℕ) (today : String) : List DrawOp :=
  [DrawOp.rect 0 0 pagesize.1 (9 / 10 * cm) GREY_LIGHT,
   DrawOp.text .left (3 / 2 * cm) (3 / 10 * cm) today "Helvetica" 8 GREY_MID,
   DrawOp.text .center (pagesize.1 / 2) (3 / 10 * cm) "CONFIDENTIAL"
     "Helvetica" 8 GREY_MID,
   DrawOp.text .right (pagesize.1 - 3 / 2 * cm) (3 / 10 * cm)
     ("Page " ++ toString page) "Helvetica" 8 GREY_MID]

/-!  Helper lemmas (shared). -/

/-- A left fold whose step appends a per-item block list to the story
equals the initial story followed by the joined per-item lists. -/
theorem foldl_step_join {α β : Type} (step : List α → β → List α)
    (f : β → List α) (h : ∀ s x, step s x = s ++ f x) :
    ∀ (l : List β) (init : List α),
      l.foldl step init = init ++ (l.map f).flatten := by
  intro l
  induction l with
  | nil => intro init; simp
  | cons x xs ih =>
      intro init
      rw [List.foldl_cons, h, ih]
      simp [List.append_assoc]

theorem filter_isTableBlock_secHeading (sec : SectionDict) :
    (secHeadingBlocks sec).filter isTableBlock = [] := by
  by_cases h : sec.heading.getD "" ≠ "" <;>
    simp [secHeadingBlocks, h, isTableBlock]

theorem filter_isTableBlock_secBody (sec : SectionDict) :
    (secBodyBlocks sec).filter isTableBlock = [] := by
  by_cases h : sec.body.getD "" ≠ "" <;>
    simp [secBodyBlocks, h, isTableBlock]

theorem filter_isTableBlock_tblHeading (tbl : TableDict) :
    (tblHeadingBlocks tbl).filter isTableBlock = [] := by
  by_cases h : tbl.heading.getD "" ≠ "" <;>
    simp [tblHeadingBlocks, h, isTableBlock]

theorem filter_isTableBlock_tblCaption (tbl : TableDict) :
    (tblCaptionBlocks tbl).filter isTableBlock = [] := by
  by_cases h : tbl.caption.getD "" ≠ "" <;>
    simp [tblCaptionBlocks, h, isTableBlock]

theorem isTableBlock_build_pdf_table (headers : List String)
    (rows : List (List String)) (cw : Option (List ℚ)) (pw : ℚ) :
    isTableBlock (_build_pdf_table headers rows cw pw) = true := by
  cases cw <;> rfl

/-!  Claim theorems. -/

/-- C2: for every headers list of length H (including H = 0) and every
available page width, when no explicit column widths are supplied,
`_build_pdf_table` computes `max(H, 1)` column widths, each equal to the
available width divided by `max(H, 1)`, so their sum equals the available
width and the division never has a zero divisor. -/
theorem C2_auto_column_widths (headers : List String)
    (rows : List (List String)) (pw : ℚ) :
    colWidthsOf (_build_pdf_table headers rows none pw)
        = List.replicate (max headers.length 1)
            (pw / ((max headers.length 1 : ℕ) : ℚ))
    ∧ (colWidthsOf (_build_pdf_table headers rows none pw)).length
        = max headers.length 1
    ∧ (colWidthsOf (_build_pdf_table headers rows none pw)).sum = pw
    ∧ 0 < max headers.length 1 := by
  have hpos : 0 < max headers.length 1 := by omega
  have hne : ((max headers.length 1 : ℕ) : ℚ) ≠ 0 := by
    exact_mod_cast Nat.pos_iff_ne_zero.mp hpos
  refine ⟨rfl, ?_, ?_, hpos⟩
  · simp [colWidthsOf, _build_pdf_table]
  · have : colWidthsOf (_build_pdf_table headers rows none pw)
        = List.replicate (max headers.length 1)
            (pw / ((max headers.length 1 : ℕ) : ℚ)) := rfl
    rw [this, List.sum_replicate, nsmul_eq_mul, mul_div_cancel₀ _ hne]

/-- C5: with `show_header` and `show_footer` both true, the header bar
(title and author) is drawn if and only if the page number is greater
than 1, while the footer bar (today's date, the fixed "CONFIDENTIAL"
marker, and the page number) is drawn unconditionally, on every page
including page 1: the emitted operations are exactly the header
operations (when `page > 1`) followed by the footer operations. -/
theorem C5_header_iff_footer_always (tpl : PageTemplate) (ps : ℚ × ℚ)
    (page : ℕ) (today : String) (st : CanvasState)
    (hh : tpl.show_header = true) (hf : tpl.show_footer = true) :
    (pageTemplateCall tpl ps page today st).2
      = (if 1 < page then headerOps tpl ps else [])
        ++ footerOps ps page today := by
  by_cases hp : 1 < page <;>
    simp [pageTemplateCall, headerOps, footerOps, hh, hf, hp,
      saveState, setFillColor, setFont]

/-- Witness for C5 at page 1: only the footer operations are emitted. -/
theorem C5_witness :
    (pageTemplateCall ⟨"T", "A", true, true⟩ A4 1 "May 1, 2025" initCanvas).2
      = footerOps A4 1 "May 1, 2025" := by
  have h := C5_header_iff_footer_always ⟨"T", "A", true, true⟩ A4 1
    "May 1, 2025" initCanvas rfl rfl
  simpa using h

/-- C6: the page-decoration callback restores all drawing state it
mutates (fill colour, font) before returning: the canvas state after the
call — including the save stack — equals the state before it, for every
template, page size, page number and incoming state. -/
theorem C6_canvas_state_restored (tpl : PageTemplate) (ps : ℚ × ℚ)
    (page : ℕ) (today : String) (st : CanvasState) :
    (pageTemplateCall tpl ps page today st).1 = st := by
  cases st with
  | mk c fn fs saved =>
      by_cases h1 : tpl.show_header = true ∧ 1 < page <;>
        by_cases h2 : tpl.show_footer = true <;>
          simp [pageTemplateCall, h1, h2, saveState, restoreState,
            setFillColor, setFont]

/-- C9: the style registry builder is idempotent and call-independent:
any two invocations return equal mappings, the key set is exactly
{Title, Subtitle, H1, H2, H3, Body, Bullet, Caption, Footer} in
insertion order, and every key is populated with its style. -/
theorem C9_build_styles_registry :
    (∀ u v : Unit, _build_styles u = _build_styles v)
    ∧ (_build_styles ()).map Prod.fst =
        ["Title", "Subtitle", "H1", "H2", "H3", "Body", "Bullet",
         "Caption", "Footer"]
    ∧ (_build_styles ()).lookup "Title" = some styleTitle
    ∧ (_build_styles ()).lookup "Subtitle" = some styleSubtitle
    ∧ (_build_styles ()).lookup "H1" = some styleH1
    ∧ (_build_styles ()).lookup "H2" = some styleH2
    ∧ (_build_styles ()).lookup "H3" = some styleH3
    ∧ (_build_styles ()).lookup "Body" = some styleBody
    ∧ (_build_styles ()).lookup "Bullet" = some styleBullet
    ∧ (_build_styles ()).lookup "Caption" = some styleCaption
    ∧ (_build_styles ()).lookup "Footer" = some styleFooter :=
  ⟨fun _ _ => rfl, rfl, rfl, rfl, rfl, rfl, rfl, rfl, rfl, rfl, rfl⟩

/-- C7: for every section with a non-empty heading, level 2 produces a
heading styled `H2` followed by a `GREY_LIGHT` rule, while level 1
produces a heading styled `H1` followed by a `BRAND_ACCENT` rule; the
two heading styles and the two rule colours are distinct.  (This heading
group is shared by `generate_text_report` and `generate_full_report`.) -/
theorem C7_level_heading_styles (sec : SectionDict)
    (hh : sec.heading.getD "" ≠ "") :
    (sec.level.getD 1 = 2 →
      secHeadingBlocks sec =
        [Block.paragraph (sec.heading.getD "") styleH2,
         Block.hrule "100%" GREY_LIGHT 1, Block.spacer 1 (cm / 5)])
    ∧ (sec.level.getD 1 = 1 →
      secHeadingBlocks sec =
        [Block.paragraph (sec.heading.getD "") styleH1,
         Block.hrule "100%" BRAND_ACCENT 1, Block.spacer 1 (cm / 5)])
    ∧ styleH1 ≠ styleH2 ∧ BRAND_ACCENT ≠ GREY_LIGHT := by
  refine ⟨fun hl => ?_, fun hl => ?_, by decide, by decide⟩ <;>
    simp [secHeadingBlocks, hl, hh]

/-- Witness for C7 at a concrete level-2 section. -/
theorem C7_witness :
    secHeadingBlocks ⟨some "H", none, none, some 2⟩ =
      [Block.paragraph "H" styleH2, Block.hrule "100%" GREY_LIGHT 1,
       Block.spacer 1 (cm / 5)] :=
  (C7_level_heading_styles ⟨some "H", none, none, some 2⟩ (by decide)).1 rfl

/-- C8: for every section whose body is present and non-empty, assembly
emits one body paragraph whose text is the body with each newline
character replaced by the line-break element `<br/>` (shared by
`generate_text_report` and `generate_full_report`). -/
theorem C8_newlines_to_line_breaks (sec : SectionDict) (b : String)
    (hb : sec.body = some b) (hne : b ≠ "") :
    secBodyBlocks sec = [Block.paragraph (replaceNewlines b) styleBody] := by
  simp [secBodyBlocks, hb, hne]

/-- Witness for C8: the body "Line1\nLine2" yields the paragraph text
"Line1<br/>Line2" — a line-break element, not a literal backslash-n. -/
theorem C8_witness :
    secBodyBlocks ⟨none, some "Line1\x0aLine2", none, none⟩ =
      [Block.paragraph "Line1<br/>Line2" styleBody] := by
  have h := C8_newlines_to_line_breaks ⟨none, some "Line1\x0aLine2", none, none⟩
    "Line1\x0aLine2" rfl (by decide)
  rw [h]
  rfl

/-- C10: every section whose "level" value is an integer other than 1 is
silently rendered with the `H2` heading style and the `GREY_LIGHT`
light-weight rule — no out-of-range level is rejected (the assembly is a
total function). -/
theorem C10_non_one_level_is_h2 (sec : SectionDict) (l : Int)
    (hl : sec.level = some l) (h1 : l ≠ 1) (hh : sec.heading.getD "" ≠ "") :
    secHeadingBlocks sec =
      [Block.paragraph (sec.heading.getD "") styleH2,
       Block.hrule "100%" GREY_LIGHT 1, Block.spacer 1 (cm / 5)] := by
  simp [secHeadingBlocks, hl, h1, hh]

/-- Witness for C10 at the out-of-range level 3. -/
theorem C10_witness :
    secHeadingBlocks ⟨some "H", none, none, some 3⟩ =
      [Block.paragraph "H" styleH2, Block.hrule "100%" GREY_LIGHT 1,
       Block.spacer 1 (cm / 5)] :=
  C10_non_one_level_is_h2 ⟨some "H", none, none, some 3⟩ 3 rfl
    (by decide) (by decide)

/-- C3: for every input with N sections and M tables, the story built by
`generate_full_report` is exactly the cover block group, then the blocks
of each of the N sections in input order, then the blocks of each of the
M tables in input order, then — if and only if the summary is non-empty —
exactly one summary block group, and nothing else, in no other order. -/
theorem C3_full_report_block_order
    (title output_path author subtitle summary today : String)
    (sections : Option (List SectionDict)) (tables : Option (List TableDict))
    (page_size : ℚ × ℚ) :
    (generate_full_report title output_path author subtitle sections tables
        summary page_size today).1
      = fullReportCover (page_size.1 - 4 * cm) title author subtitle today
        ++ ((sections.getD []).map fullSecBlocks).flatten
        ++ ((tables.getD []).map
              (fullTblBlocks (page_size.1 - 4 * cm))).flatten
        ++ (if summary ≠ "" then summaryBlocks summary else []) := by
  simp only [generate_full_report]
  rw [foldl_step_join fullSectionStep fullSecBlocks (fun _ _ => rfl),
    foldl_step_join (fullTableStep (page_size.1 - 4 * cm))
      (fullTblBlocks (page_size.1 - 4 * cm)) (fun _ _ => rfl)]
  by_cases hs : summary ≠ "" <;> simp [hs, List.append_assoc]

/-- C4: block assembly is total over sparse inputs, each absent field
merely contributing nothing: an empty or missing heading, body, bullets,
caption, headers or rows produces no corresponding block, and an empty
or `None` section/table list leaves only the cover blocks, in all three
entry points.  (The section parts are shared by `generate_text_report`
and `generate_full_report`; the table parts by `generate_table_report`
and `generate_full_report`.) -/
theorem C4_absent_fields_omitted :
    (∀ sec : SectionDict, sec.heading = none ∨ sec.heading = some "" →
        secHeadingBlocks sec = [])
    ∧ (∀ sec : SectionDict, sec.body = none ∨ sec.body = some "" →
        secBodyBlocks sec = [])
    ∧ (∀ sec : SectionDict, sec.bullets = none ∨ sec.bullets = some [] →
        secBulletBlocks sec = [])
    ∧ (∀ tbl : TableDict, tbl.heading = none ∨ tbl.heading = some "" →
        tblHeadingBlocks tbl = [])
    ∧ (∀ (w : ℚ) (tbl : TableDict),
        tbl.headers = none ∨ tbl.headers = some []
          ∨ tbl.rows = none ∨ tbl.rows = some [] →
        tblTableBlocks w tbl = [])
    ∧ (∀ tbl : TableDict, tbl.caption = none ∨ tbl.caption = some "" →
        tblCaptionBlocks tbl = [])
    ∧ (∀ title output_path author subtitle today : String,
        (generate_text_report title [] output_path author subtitle today).1
          = textReportCover title author subtitle today)
    ∧ (∀ (title output_path author today : String) (ps : ℚ × ℚ),
        (generate_table_report title [] output_path author "" ps today).1
          = tableReportCover title author today)
    ∧ (∀ (title output_path author subtitle today : String) (ps : ℚ × ℚ),
        (generate_full_report title output_path author subtitle none none
            "" ps today).1
          = fullReportCover (ps.1 - 4 * cm) title author subtitle today) := by
  refine ⟨?_, ?_, ?_, ?_, ?_, ?_, ?_, ?_, ?_⟩
  · rintro sec (h | h) <;> simp [secHeadingBlocks, h]
  · rintro sec (h | h) <;> simp [secBodyBlocks, h]
  · rintro sec (h | h) <;> simp [secBulletBlocks, h]
  · rintro tbl (h | h) <;> simp [tblHeadingBlocks, h]
  · rintro w tbl (h | h | h | h) <;> simp [tblTableBlocks, h]
  · rintro tbl (h | h) <;> simp [tblCaptionBlocks, h]
  · intro title output_path author subtitle today
    rfl
  · intro title output_path author today ps
    simp [generate_table_report, introBlocks]
  · intro title output_path author subtitle today ps
    rfl

/-- Witness for C4: the all-fields-missing section and table dicts (and
the empty-string variants) contribute no blocks. -/
theorem C4_witness :
    secHeadingBlocks ⟨none, none, none, none⟩ = []
    ∧ secBodyBlocks ⟨none, none, none, none⟩ = []
    ∧ secBulletBlocks ⟨none, none, none, none⟩ = []
    ∧ tblHeadingBlocks ⟨none, none, none, none⟩ = []
    ∧ tblTableBlocks 100 ⟨none, none, none, none⟩ = []
    ∧ tblCaptionBlocks ⟨none, none, none, none⟩ = []
    ∧ (generate_text_report "T" [] "out.pdf" "" "" "May 1, 2025").1
        = textReportCover "T" "" "" "May 1, 2025" :=
  ⟨C4_absent_fields_omitted.1 ⟨none, none, none, none⟩ (Or.inl rfl),
   C4_absent_fields_omitted.2.1 ⟨none, none, none, none⟩ (Or.inl rfl),
   C4_absent_fields_omitted.2.2.1 ⟨none, none, none, none⟩ (Or.inl rfl),
   C4_absent_fields_omitted.2.2.2.1 ⟨none, none, none, none⟩ (Or.inl rfl),
   C4_absent_fields_omitted.2.2.2.2.1 100 ⟨none, none, none, none⟩
     (Or.inl rfl),
   C4_absent_fields_omitted.2.2.2.2.2.1 ⟨none, none, none, none⟩
     (Or.inl rfl),
   C4_absent_fields_omitted.2.2.2.2.2.2.1 "T" "out.pdf" "" "" "May 1, 2025"⟩

/-- C1 counterexample: the claim says a table dict with non-empty headers
but an empty rows list still produces a header-only table block.  On the
code (`if headers and rows:`) it does not: for the concrete input
`{headers: ["A"], rows: []}`, the story built by `generate_table_report`
contains no table block at all. -/
theorem C1_counterexample :
    ((generate_table_report "T" [⟨none, some ["A"], some [], none⟩]
        "out.pdf" "" "" A4 "May 1, 2025").1).filter isTableBlock = [] := by
  rfl

/-- C1 (amended): a table block is emitted if and only if BOTH the
headers list and the rows list are non-empty; in particular a table with
an empty rows list is skipped entirely (no table block, no error), just
like one with empty headers and empty rows.  `tblTableBlocks` is the
table-block group used by both `generate_table_report` and
`generate_full_report`. -/
theorem C1_amended_table_block_iff (tbl : TableDict) (w : ℚ) :
    (tblTableBlocks w tbl ≠ [] ↔
      tbl.headers.getD [] ≠ [] ∧ tbl.rows.getD [] ≠ [])
    ∧ (tbl.rows.getD [] = [] → tblTableBlocks w tbl = []) := by
  constructor
  · by_cases h : tbl.headers.getD [] ≠ [] ∧ tbl.rows.getD [] ≠ [] <;>
      simp [tblTableBlocks, h]
  · intro hr
    simp [tblTableBlocks, hr]

/-- Witness for C1 (amended): empty rows with non-empty headers emit no
table block. -/
theorem C1_witness :
    tblTableBlocks 100 ⟨none, some ["A"], some [], none⟩ = [] :=
  (C1_amended_table_block_iff ⟨none, some ["A"], some [], none⟩ 100).2 rfl

end ReportGen
